import Mathlib

/-!
Verification development for the TimescaleDB experiment harness of
pass-culture-main: the benchmark orchestration pipeline
(`scripts/run_full_benchmark.sh`), the incremental seeding performance test,
and the seeding / conversion / benchmarking components documented in
`TIMESCALEDB_EXPERIMENT_STATUS.md`.
-/

/-! ## Pipeline embedding (scripts/run_full_benchmark.sh)

The orchestration script is a straight-line bash script with `set -euo
pipefail`: steps execute strictly in textual order and any failing step
aborts the run, so every execution runs a prefix of the step list.  Each step
is modelled with its kind and, when it targets one of the two databases, the
host port it is invoked with (5432-mapped host port 5434 = baseline
PostgreSQL store, 5435 = TimescaleDB experiment store). -/

inductive StepKind where
  | infra
  | migrate
  | disableTrigger
  | enableTrigger
  | seed
  | benchmark
  | partitionTransform
  | compressionTransform
  | analyze
deriving DecidableEq, BEq, Repr

structure Step where
  kind : StepKind
  port : Option Nat
deriving DecidableEq, BEq, Repr

/-- The steps of `run_full_benchmark.sh`, in the order the script executes
them: infrastructure start, migrations on both databases, trigger disabling
on both databases (lines 43-47), seeding of the PostgreSQL baseline store
(Step 3, port 5434), seeding of the TimescaleDB experiment store (Step 4,
port 5435), baseline benchmark (Step 5, port 5434), hypertable conversion
(Step 6, port 5435), Strategy 1 benchmark (Step 7, port 5435), compression
(Step 8, port 5435), Strategy 2 benchmark (Step 9, port 5435), and the
comparison-report analyzer (Step 10). -/
def fullBenchmarkSteps : List Step :=
  [ ⟨.infra, none⟩
  , ⟨.migrate, some 5434⟩
  , ⟨.migrate, some 5435⟩
  , ⟨.disableTrigger, some 5434⟩
  , ⟨.disableTrigger, some 5435⟩
  , ⟨.seed, some 5434⟩
  , ⟨.seed, some 5435⟩
  , ⟨.benchmark, some 5434⟩
  , ⟨.partitionTransform, some 5435⟩
  , ⟨.benchmark, some 5435⟩
  , ⟨.compressionTransform, some 5435⟩
  , ⟨.benchmark, some 5435⟩
  , ⟨.analyze, none⟩ ]

/-- Boolean test that a step has a given kind. -/
def isKind (k : StepKind) (s : Step) : Bool := s.kind == k

/-- Every step satisfying `p` occurs strictly before every step satisfying
`q` in the list. -/
def everyBefore (p q : Step → Bool) (l : List Step) : Bool :=
  l.enum.all fun a => l.enum.all fun b => !(p a.2 && q b.2) || a.1 < b.1

/-- Index of the first step satisfying `p`. -/
def idxOf (p : Step → Bool) (l : List Step) : Nat := l.findIdx p

/-- Some step satisfying `mid` occurs strictly between the first step
satisfying `p` and the first step satisfying `q`. -/
def someBetween (p mid q : Step → Bool) (l : List Step) : Bool :=
  l.enum.any fun m =>
    mid m.2 && idxOf p l < m.1 && m.1 < idxOf q l

/-- The baseline benchmark pass: a benchmark step against port 5434. -/
def isBaselineBench (s : Step) : Bool :=
  isKind .benchmark s && s.port == some 5434

/-- Either of the two physical-layout transforms. -/
def isTransform (s : Step) : Bool :=
  isKind .partitionTransform s || isKind .compressionTransform s

/-- Claim C2: the pipeline executes its steps in a fixed order: both stores
are fully seeded, then the baseline benchmark pass runs, then the partition
transform is applied and is followed by a benchmark pass, then the
compression transform is applied (only after partitioning has completed) and
is followed by a benchmark pass, and the Analyzer runs last, after all
benchmark outputs exist.  Because the script runs under `set -e`, the list
order is the execution order and every execution is a prefix of it. -/
theorem C2_pipeline_order :
    everyBefore (isKind .seed) (isKind .benchmark) fullBenchmarkSteps = true ∧
    everyBefore (isKind .seed) (isKind .partitionTransform) fullBenchmarkSteps = true ∧
    everyBefore isBaselineBench (isKind .partitionTransform) fullBenchmarkSteps = true ∧
    everyBefore (isKind .partitionTransform) (isKind .compressionTransform)
      fullBenchmarkSteps = true ∧
    someBetween (isKind .partitionTransform) (isKind .benchmark)
      (isKind .compressionTransform) fullBenchmarkSteps = true ∧
    someBetween (isKind .compressionTransform) (isKind .benchmark)
      (isKind .analyze) fullBenchmarkSteps = true ∧
    everyBefore (isKind .benchmark) (isKind .analyze) fullBenchmarkSteps = true ∧
    idxOf (isKind .analyze) fullBenchmarkSteps = fullBenchmarkSteps.length - 1 ∧
    fullBenchmarkSteps.countP (isKind .analyze) = 1 := by
  decide

/-- Claim C3: neither the partition transform nor the compression transform
ever targets the baseline store: every transform invocation in the pipeline
targets port 5435 (the TimescaleDB experiment store), none targets port 5434
(the baseline PostgreSQL store), and the baseline benchmark measures the
untransformed store at port 5434. -/
theorem C3_transforms_never_touch_baseline :
    fullBenchmarkSteps.all
      (fun s => !(isTransform s) || s.port == some 5435) = true ∧
    fullBenchmarkSteps.all
      (fun s => !(isTransform s && s.port == some 5434)) = true ∧
    fullBenchmarkSteps.any isBaselineBench = true ∧
    fullBenchmarkSteps.countP isTransform = 2 := by
  decide

/-! ## Validation-trigger state across the pipeline (claim C9)

`run_full_benchmark.sh` disables the `ensure_password_or_sso_exists` and
`booking_update` validation triggers on both stores before seeding (lines
43-47) and contains no re-enabling command on any path; under `set -e` an
aborted run stops after some prefix of the steps.  The trigger state is
tracked as a single boolean (`true` = validation triggers enabled). -/

/-- Effect of one pipeline step on the validation-trigger state. -/
def applyTrigger (enabled : Bool) (s : Step) : Bool :=
  if s.kind == .disableTrigger then false
  else if s.kind == .enableTrigger then true
  else enabled

/-- Trigger state after executing the first `n` steps of the pipeline
(every execution under `set -e` is such a prefix), starting from the enabled
state left by the migrations. -/
def triggerStateAfter (n : Nat) : Bool :=
  (fullBenchmarkSteps.take n).foldl applyTrigger true

/-- Claim C9, counterexample: on the complete successful execution of the
pipeline, the validation triggers are disabled before the first seeding
batch (after the five setup steps) and are still disabled when the run
terminates, so the scoped-acquisition release claimed by the spec does not
hold on the code. -/
theorem C9_counterexample :
    triggerStateAfter 5 = false ∧
    triggerStateAfter fullBenchmarkSteps.length = false := by
  decide

/-- Claim C9, amended: the pipeline disables the validation triggers before
the first seeding batch and never re-enables them: no step of the script is
a trigger-enabling command, and every execution path that has passed the
trigger-disabling steps — including every fatal-error path that aborts after
any later prefix — terminates with the triggers still disabled. -/
theorem C9_triggers_stay_disabled (n : Nat) (h : 5 ≤ n) :
    triggerStateAfter n = false ∧
    fullBenchmarkSteps.all (fun s => !(s.kind == StepKind.enableTrigger)) = true := by
  refine ⟨?_, by decide⟩
  rcases le_or_lt n 13 with h13 | h13
  · interval_cases n <;> decide
  · have hlen : fullBenchmarkSteps.length ≤ n := by
      simp [fullBenchmarkSteps]
      omega
    rw [triggerStateAfter, List.take_of_length_le hlen]
    decide

/-- Witness for `C9_triggers_stay_disabled` at the complete 13-step run. -/
theorem C9_triggers_stay_disabled_witness :
    5 ≤ 13 ∧
    (triggerStateAfter 13 = false ∧
      fullBenchmarkSteps.all (fun s => !(s.kind == StepKind.enableTrigger)) = true) :=
  ⟨by decide, C9_triggers_stay_disabled 13 (by decide)⟩

/-! ## Incremental seeding performance test (claim C10)

The incremental test script runs the seeder for sizes 10000, 100000 and
500000, measures the elapsed wall-clock seconds with `date +%s`, and then
evaluates `$((SIZE / DURATION))` for the per-second rate and
`$((1000000 / RATE))`, `$((1000000 / RATE / 60))`, ... for the
extrapolations.  Bash integer arithmetic has no guard: division by zero is
an expansion error, and with `set -e` the script aborts at that line. -/

/-- Bash `$(( a / b ))`: truncating integer division that aborts the script
on a zero divisor (expansion error under `set -e`). -/
def bashDiv (a b : Nat) : Except String Nat :=
  if b = 0 then .error "division by 0" else .ok (a / b)

/-- One report block of the incremental test: the rate line and the six
extrapolated figures (seconds and minutes for 1M, 2M and 5M bookings). -/
structure RateReport where
  rate : Nat
  sec1M : Nat
  min1M : Nat
  sec2M : Nat
  min2M : Nat
  sec5M : Nat
  min5M : Nat
deriving DecidableEq, Repr

/-- The per-size tail of the incremental-test loop body: the `Rate:` echo
divides `size` by the measured `duration`, then `RATE=$((SIZE / DURATION))`
divides again, and each extrapolation line divides by the rate.  Every
division is unguarded `bashDiv`. -/
def rateAndExtrapolations (size duration : Nat) : Except String RateReport := do
  let rateEcho ← bashDiv size duration
  let rate ← bashDiv size duration
  let s1 ← bashDiv 1000000 rate
  let m1 ← bashDiv s1 60
  let s2 ← bashDiv 2000000 rate
  let m2 ← bashDiv s2 60
  let s5 ← bashDiv 5000000 rate
  let m5 ← bashDiv s5 60
  pure ⟨rateEcho, s1, m1, s2, m2, s5, m5⟩

/-- The sizes tested by the incremental-test loop (`SIZES=(10000 100000
500000)`). -/
def testSizes : List Nat := [10000, 100000, 500000]

/-- The incremental-test loop over a list of sizes: the loop body runs for
each size in order; under `set -e` the first failing arithmetic expansion
aborts the script, so the sequencing is the `Except` monad's. -/
def runSizes (durationOf : Nat → Nat) : List Nat → Except String (List RateReport)
  | [] => .ok []
  | size :: rest => do
    let r ← rateAndExtrapolations size (durationOf size)
    let rs ← runSizes durationOf rest
    pure (r :: rs)

/-- The whole incremental test over the three configured sizes. -/
def incrementalTest (durationOf : Nat → Nat) : Except String (List RateReport) :=
  runSizes durationOf testSizes

/-- Claim C10: the per-second rate and the extrapolated timings are computed
by unguarded integer division by the measured elapsed duration; a seeding
run that completes within the same wall-clock second (elapsed duration 0)
makes the division fail, so the loop body aborts with the bash
division-by-zero error instead of reporting a rate. -/
theorem C10_zero_duration_aborts (size : Nat) :
    rateAndExtrapolations size 0 = .error "division by 0" ∧
    ∀ durationOf : Nat → Nat, ∀ s ∈ testSizes, durationOf s = 0 →
      (incrementalTest durationOf).isOk = false := by
  refine ⟨rfl, ?_⟩
  intro durationOf s hs h0
  have herr : ∀ sz, durationOf sz = 0 →
      rateAndExtrapolations sz (durationOf sz) = .error "division by 0" := by
    intro sz hz
    rw [hz]
    rfl
  fin_cases hs
  · simp only [incrementalTest, testSizes, runSizes, herr _ h0]
    rfl
  · cases h1 : rateAndExtrapolations 10000 (durationOf 10000) with
    | error e =>
      simp only [incrementalTest, testSizes, runSizes, h1]
      rfl
    | ok r =>
      simp only [incrementalTest, testSizes, runSizes, h1, herr _ h0]
      rfl
  · cases h1 : rateAndExtrapolations 10000 (durationOf 10000) with
    | error e =>
      simp only [incrementalTest, testSizes, runSizes, h1]
      rfl
    | ok r =>
      cases h2 : rateAndExtrapolations 100000 (durationOf 100000) with
      | error e =>
        simp only [incrementalTest, testSizes, runSizes, h1, h2]
        rfl
      | ok r2 =>
        simp only [incrementalTest, testSizes, runSizes, h1, h2, herr _ h0]
        rfl

/-- Witness for `C10_zero_duration_aborts`: the constant-zero duration
function at the first tested size makes the whole test abort. -/
theorem C10_zero_duration_aborts_witness :
    rateAndExtrapolations 10000 0 = .error "division by 0" ∧
    (incrementalTest (fun _ => 0)).isOk = false :=
  ⟨(C10_zero_duration_aborts 10000).1,
    (C10_zero_duration_aborts 10000).2 (fun _ => 0) 10000 (by decide) rfl⟩

/-! ## Bulk-insert batches and the RETURNING invariant (claim C1)

`seed_timescaledb_standalone.py` is not part of the available sources; the
status document records its batch pattern precisely: every `_generate_*`
phase submits fixed-size batches through psycopg2's `execute_values` with a
`RETURNING` clause, `execute_values` paginates the submitted rows internally
into pages of `page_size` rows (default 100), and `cursor.fetchall()`
surfaces only the `RETURNING` results of the LAST page.  The fixed script
passes `page_size=len(values)` on every call.  The per-batch length
assertion is modelled from the spec: submit the batch, compare the returned
identifier count with the submitted row count, and fail the phase with a
data-integrity error on mismatch. -/

/-- Number of rows on the last internal page when `n` rows are split into
pages of `k` rows (psycopg2 `execute_values` pagination). -/
def lastPageLen (n k : Nat) : Nat :=
  if n = 0 then 0
  else if k = 0 then n
  else if n % k = 0 then k
  else n % k

/-- Model of `execute_values(..., RETURNING ...)` followed by
`cursor.fetchall()`: all `rows` are inserted and receive the consecutive
identifiers starting at `startId`, but the fetched result holds only the
identifiers of the last internal page of `pageSize` rows. -/
def executeValuesFetchall (rows : List Nat) (pageSize startId : Nat) : List Nat :=
  List.range' (startId + rows.length - lastPageLen rows.length pageSize)
    (lastPageLen rows.length pageSize)

/-- Modelled from the spec: the per-batch contract of the missing
`seed_timescaledb_standalone.py` — submit one bulk statement requesting
returned identifiers, then assert that the returned identifier count equals
the submitted row count, failing the phase with a data-integrity error on
mismatch instead of continuing with a partial identifier set. -/
def checkedBulkInsert (rows : List Nat) (pageSize startId : Nat) :
    Except String (List Nat) :=
  let ids := executeValuesFetchall rows pageSize startId
  if ids.length = rows.length then .ok ids
  else .error "data-integrity error: returned identifier count differs from submitted row count"

/-- The batch insert as every fixed `_generate_*` phase performs it:
`page_size=len(values)`, so the batch is a single internal page. -/
def seedBatchInsert (rows : List Nat) (startId : Nat) : Except String (List Nat) :=
  checkedBulkInsert rows rows.length startId

/-- The fetched identifier count is the last internal page's length. -/
lemma length_executeValuesFetchall (rows : List Nat) (pageSize startId : Nat) :
    (executeValuesFetchall rows pageSize startId).length
      = lastPageLen rows.length pageSize := by
  simp [executeValuesFetchall]

/-- With a single page covering the whole batch the last page is the batch. -/
lemma lastPageLen_self (n : Nat) : lastPageLen n n = n := by
  unfold lastPageLen
  rcases Nat.eq_zero_or_pos n with h | h
  · simp [h]
  · simp [Nat.pos_iff_ne_zero.mp h, Nat.mod_self]

/-- Claim C1: (i) for every batch and every internal pagination of the
bulk-insert primitive, a successful checked bulk insert returns exactly as
many identifiers as rows were submitted; (ii) every batch submitted with the
generator's fixed `page_size=len(values)` call succeeds with a full
identifier set; (iii) the documented defect configuration — a 10,000-row
batch against the default page size of 100 — is rejected with the
data-integrity error instead of continuing with the 100-identifier partial
set. -/
theorem C1_batch_identity_invariant :
    (∀ (pageSize : Nat) (rows : List Nat) (startId : Nat) (ids : List Nat),
      checkedBulkInsert rows pageSize startId = .ok ids →
        ids.length = rows.length) ∧
    (∀ (rows : List Nat) (startId : Nat),
      ∃ ids, seedBatchInsert rows startId = .ok ids ∧
        ids.length = rows.length) ∧
    checkedBulkInsert (List.range 10000) 100 1
      = .error "data-integrity error: returned identifier count differs from submitted row count" := by
  refine ⟨?_, ?_, ?_⟩
  · intro pageSize rows startId ids h
    simp only [checkedBulkInsert] at h
    split at h
    · rename_i hc
      cases h
      exact hc
    · cases h
  · intro rows startId
    refine ⟨executeValuesFetchall rows rows.length startId, ?_, ?_⟩
    · simp [seedBatchInsert, checkedBulkInsert, length_executeValuesFetchall,
        lastPageLen_self]
    · simp [length_executeValuesFetchall, lastPageLen_self]
  · have h : lastPageLen (List.range 10000).length 100 = 100 := by
      norm_num [lastPageLen, List.length_range]
    simp [checkedBulkInsert, length_executeValuesFetchall, h,
      List.length_range]
    norm_num [lastPageLen]

/-- Witness for `C1_batch_identity_invariant`: part (i) applied to the
concrete three-row batch with pagination width 3 starting at identifier 0,
and part (ii) applied to the same batch. -/
theorem C1_batch_identity_invariant_witness :
    (([0, 1, 2] : List Nat).length = ([5, 6, 7] : List Nat).length) ∧
    (∃ ids, seedBatchInsert [5, 6, 7] 0 = .ok ids ∧
      ids.length = ([5, 6, 7] : List Nat).length) :=
  ⟨C1_batch_identity_invariant.1 3 [5, 6, 7] 0 [0, 1, 2] (by rfl),
   C1_batch_identity_invariant.2.1 [5, 6, 7] 0⟩

/-! ## Postal-code range of the Generator (claim C4)

The status document records the fixed postal-code formula of the missing
seed script (`Issue #2`): the generated code is `i % 90000 + 10000` for both
`_generate_addresses` and `_generate_venues` (the buggy pre-fix formula was
`i % 90000 + 1000`), and the schema carries a check constraint rejecting
codes outside 10000-99999, so an out-of-range code raises a constraint
violation — the generation fails rather than clamping the value. -/

/-- Postal code generated for the `i`-th Address row (fixed formula from
`_generate_addresses`). -/
def postalCode (i : Nat) : Nat := i % 90000 + 10000

/-- Postal code generated for the `i`-th Venue row (fixed formula from
`_generate_venues`). -/
def venuePostalCode (i : Nat) : Nat := i % 90000 + 10000

/-- Modelled from the spec: the schema's postal-code check constraint (the
seed script and schema DDL are not under the available sources).  Inserting
a row whose postal code lies outside 10000-99999 fails with a
check-constraint violation; the value is never altered. -/
def insertPostal (p : Nat) : Except String Nat :=
  if 10000 ≤ p ∧ p ≤ 99999 then .ok p
  else .error "check constraint violation: postal code out of range"

/-- Claim C4: every postal code produced for every generated Address and
Venue row lies inside the schema's valid numeric range 10000-99999 and is
accepted unchanged by the check constraint, while any out-of-range postal
code fails the insert with a constraint violation instead of being silently
clamped into range. -/
theorem C4_postal_codes_in_range :
    (∀ i, 10000 ≤ postalCode i ∧ postalCode i ≤ 99999) ∧
    (∀ i, 10000 ≤ venuePostalCode i ∧ venuePostalCode i ≤ 99999) ∧
    (∀ i, insertPostal (postalCode i) = .ok (postalCode i)) ∧
    (∀ i, insertPostal (venuePostalCode i) = .ok (venuePostalCode i)) ∧
    (∀ p, p < 10000 ∨ 99999 < p →
      insertPostal p = .error "check constraint violation: postal code out of range") := by
  have hrange : ∀ i, 10000 ≤ i % 90000 + 10000 ∧ i % 90000 + 10000 ≤ 99999 := by
    intro i
    have := Nat.mod_lt i (y := 90000) (by omega)
    omega
  refine ⟨hrange, hrange, ?_, ?_, ?_⟩
  · intro i
    have h := hrange i
    simp [insertPostal, postalCode, h.1, h.2]
  · intro i
    have h := hrange i
    simp [insertPostal, venuePostalCode, h.1, h.2]
  · intro p hp
    have : ¬ (10000 ≤ p ∧ p ≤ 99999) := by omega
    simp [insertPostal, this]

/-- Witness for `C4_postal_codes_in_range`: the out-of-range branch applied
at postal code 1000, the value the pre-fix formula produced for `i = 0`. -/
theorem C4_postal_codes_in_range_witness :
    insertPostal 1000 = .error "check constraint violation: postal code out of range" :=
  C4_postal_codes_in_range.2.2.2.2 1000 (Or.inl (by decide))

/-! ## Per-chunk compression ratios (claim C8)

`apply_compression.py` is not part of the available sources; the status
document records that it compresses every existing chunk and reports a
per-chunk compression ratio.  Modelled from the spec: the per-chunk report
divides the uncompressed size by the compressed size, and a computed ratio
below 1 (or an unusable zero compressed size) is surfaced as a measurement
or configuration error rather than accepted into the report. -/

/-- Modelled from the spec: per-chunk compression report of the missing
`apply_compression.py`.  `uncompressedBytes` and `compressedBytes` are the
chunk's measured sizes; the report carries uncompressed ÷ compressed as an
exact rational, and surfaces an error when the measurement is unusable
(zero compressed size) or when the computed ratio is below 1. -/
def chunkCompressionReport (uncompressedBytes compressedBytes : Nat) :
    Except String Rat :=
  if compressedBytes = 0 then
    .error "measurement error: compressed chunk size is zero"
  else
    let r : Rat := (uncompressedBytes : Rat) / (compressedBytes : Rat)
    if r < 1 then
      .error "measurement or configuration error: compression ratio below 1"
    else .ok r

/-- Claim C8: every per-chunk compression ratio that reaches the report is
at least 1, and any chunk whose computed ratio would be below 1 (compressed
size exceeding uncompressed size) is surfaced as a measurement or
configuration error instead of being silently accepted. -/
theorem C8_compression_ratio_at_least_one :
    (∀ (u c : Nat) (r : Rat),
      chunkCompressionReport u c = .ok r → 1 ≤ r) ∧
    (∀ u c : Nat, c ≠ 0 → u < c →
      chunkCompressionReport u c
        = .error "measurement or configuration error: compression ratio below 1") := by
  constructor
  · intro u c r h
    simp only [chunkCompressionReport] at h
    split at h
    · cases h
    · split at h
      · cases h
      · rename_i hr
        cases h
        exact le_of_not_lt hr
  · intro u c hc hu
    have hcpos : (0 : Rat) < (c : Rat) := by
      exact_mod_cast Nat.pos_of_ne_zero hc
    have hlt : (u : Rat) / (c : Rat) < 1 := by
      rw [div_lt_one hcpos]
      exact_mod_cast hu
    simp [chunkCompressionReport, hc, hlt]

/-- Witness for `C8_compression_ratio_at_least_one`: a chunk compressed from
3 bytes to 2 bytes yields the reported ratio 3/2 ≥ 1, and a chunk whose
"compressed" size 4 exceeds its uncompressed size 3 is surfaced as an
error. -/
theorem C8_compression_ratio_at_least_one_witness :
    (1 ≤ ((3 : Rat) / 2)) ∧
    chunkCompressionReport 3 4
      = .error "measurement or configuration error: compression ratio below 1" :=
  ⟨C8_compression_ratio_at_least_one.1 3 2 ((3 : Rat) / 2)
      (by norm_num [chunkCompressionReport]),
    C8_compression_ratio_at_least_one.2 3 4 (by norm_num) (by norm_num)⟩

/-! ## Booking status distribution (claim C5)

The seed script is not part of the available sources; the status document
fixes the target mix at 50% CONFIRMED, 30% USED, 15% CANCELLED and
5% REIMBURSED.  Modelled from the spec: the generator assigns statuses so as
to realize the 50/30/15/5 mix, here by a deterministic 20-booking cycle
(10 CONFIRMED, 6 USED, 3 CANCELLED, 1 REIMBURSED per cycle), which
reproduces the specified proportions exactly up to the final partial
cycle. -/

inductive BookingStatus where
  | confirmed
  | used
  | cancelled
  | reimbursed
deriving DecidableEq, Repr

/-- Modelled from the spec: status assigned to the `i`-th generated Booking,
realizing the 50/30/15/5 mix over each 20-booking cycle. -/
def bookingStatus (i : Nat) : BookingStatus :=
  if i % 20 < 10 then .confirmed
  else if i % 20 < 16 then .used
  else if i % 20 < 19 then .cancelled
  else .reimbursed

/-- Number of Bookings with status `s` among the first `n` generated
Bookings. -/
def statusCount (s : BookingStatus) : Nat → Nat
  | 0 => 0
  | n + 1 => statusCount s n + (if bookingStatus n = s then 1 else 0)

/-- The indicator of status `s` at index `n`, evaluated from the band of
`n % 20`. -/
lemma statusIndicator (s : BookingStatus) (n : Nat) :
    (if bookingStatus n = s then 1 else 0)
      = (if (n % 20 < 10 ∧ s = BookingStatus.confirmed) ∨
            (10 ≤ n % 20 ∧ n % 20 < 16 ∧ s = BookingStatus.used) ∨
            (16 ≤ n % 20 ∧ n % 20 < 19 ∧ s = BookingStatus.cancelled) ∨
            (19 ≤ n % 20 ∧ s = BookingStatus.reimbursed)
          then 1 else 0) := by
  by_cases h1 : n % 20 < 10
  · have hb : bookingStatus n = BookingStatus.confirmed := by
      simp [bookingStatus, h1]
    rw [hb]
    cases s <;> simp <;> split_ifs <;> omega
  · by_cases h2 : n % 20 < 16
    · have hb : bookingStatus n = BookingStatus.used := by
        simp [bookingStatus, h1, h2]
      rw [hb]
      cases s <;> simp <;> split_ifs <;> omega
    · by_cases h3 : n % 20 < 19
      · have hb : bookingStatus n = BookingStatus.cancelled := by
          simp [bookingStatus, h1, h2, h3]
        rw [hb]
        cases s <;> simp <;> split_ifs <;> omega
      · have hb : bookingStatus n = BookingStatus.reimbursed := by
          simp [bookingStatus, h1, h2, h3]
        rw [hb]
        cases s <;> simp <;> split_ifs <;> omega

/-- Closed form of the CONFIRMED count. -/
lemma statusCount_confirmed (n : Nat) :
    statusCount .confirmed n = 10 * (n / 20) + min (n % 20) 10 := by
  induction n with
  | zero => rfl
  | succ n ih =>
    have hstep : statusCount BookingStatus.confirmed (n + 1)
        = statusCount BookingStatus.confirmed n
          + (if bookingStatus n = BookingStatus.confirmed then 1 else 0) := rfl
    rw [hstep, ih, statusIndicator]
    simp only []
    split
    · rename_i hcond
      simp only [and_true, reduceCtorEq, and_false, false_and, or_false] at hcond
      omega
    · rename_i hcond
      simp only [and_true, reduceCtorEq, and_false, false_and, or_false] at hcond
      omega

/-- Closed form of the USED count. -/
lemma statusCount_used (n : Nat) :
    statusCount .used n = 6 * (n / 20) + (min (n % 20) 16 - min (n % 20) 10) := by
  induction n with
  | zero => rfl
  | succ n ih =>
    have hstep : statusCount BookingStatus.used (n + 1)
        = statusCount BookingStatus.used n
          + (if bookingStatus n = BookingStatus.used then 1 else 0) := rfl
    rw [hstep, ih, statusIndicator]
    split
    · rename_i hcond
      simp only [and_true, reduceCtorEq, and_false, false_and, false_or,
        or_false] at hcond
      omega
    · rename_i hcond
      simp only [and_true, reduceCtorEq, and_false, false_and, false_or,
        or_false] at hcond
      omega

/-- Closed form of the CANCELLED count. -/
lemma statusCount_cancelled (n : Nat) :
    statusCount .cancelled n
      = 3 * (n / 20) + (min (n % 20) 19 - min (n % 20) 16) := by
  induction n with
  | zero => rfl
  | succ n ih =>
    have hstep : statusCount BookingStatus.cancelled (n + 1)
        = statusCount BookingStatus.cancelled n
          + (if bookingStatus n = BookingStatus.cancelled then 1 else 0) := rfl
    rw [hstep, ih, statusIndicator]
    split
    · rename_i hcond
      simp only [and_true, reduceCtorEq, and_false, false_and, false_or,
        or_false] at hcond
      omega
    · rename_i hcond
      simp only [and_true, reduceCtorEq, and_false, false_and, false_or,
        or_false] at hcond
      omega

/-- Closed form of the REIMBURSED count. -/
lemma statusCount_reimbursed (n : Nat) :
    statusCount .reimbursed n = n / 20 := by
  induction n with
  | zero => rfl
  | succ n ih =>
    have hstep : statusCount BookingStatus.reimbursed (n + 1)
        = statusCount BookingStatus.reimbursed n
          + (if bookingStatus n = BookingStatus.reimbursed then 1 else 0) := rfl
    rw [hstep, ih, statusIndicator]
    split
    · rename_i hcond
      simp only [and_true, reduceCtorEq, and_false, false_and, false_or,
        or_false] at hcond
      omega
    · rename_i hcond
      simp only [and_true, reduceCtorEq, and_false, false_and, false_or,
        or_false] at hcond
      omega

/-- Claim C5: for every generated Booking population of size at least
100,000, the empirical status distribution over the full population is
within 2 percentage points of 50% CONFIRMED, 30% USED, 15% CANCELLED and
5% REIMBURSED (the share bounds are stated multiplied through by 100·n). -/
theorem C5_status_distribution (n : Nat) (h : 100000 ≤ n) :
    (48 * n ≤ 100 * statusCount .confirmed n ∧
      100 * statusCount .confirmed n ≤ 52 * n) ∧
    (28 * n ≤ 100 * statusCount .used n ∧
      100 * statusCount .used n ≤ 32 * n) ∧
    (13 * n ≤ 100 * statusCount .cancelled n ∧
      100 * statusCount .cancelled n ≤ 17 * n) ∧
    (3 * n ≤ 100 * statusCount .reimbursed n ∧
      100 * statusCount .reimbursed n ≤ 7 * n) := by
  rw [statusCount_confirmed, statusCount_used, statusCount_cancelled,
    statusCount_reimbursed]
  omega

/-- Witness for `C5_status_distribution` at the minimal population size
100,000. -/
theorem C5_status_distribution_witness :
    (48 * 100000 ≤ 100 * statusCount .confirmed 100000 ∧
      100 * statusCount .confirmed 100000 ≤ 52 * 100000) ∧
    (28 * 100000 ≤ 100 * statusCount .used 100000 ∧
      100 * statusCount .used 100000 ≤ 32 * 100000) ∧
    (13 * 100000 ≤ 100 * statusCount .cancelled 100000 ∧
      100 * statusCount .cancelled 100000 ≤ 17 * 100000) ∧
    (3 * 100000 ≤ 100 * statusCount .reimbursed 100000 ∧
      100 * statusCount .reimbursed 100000 ≤ 7 * 100000) :=
  C5_status_distribution 100000 (by norm_num)

/-! ## Generator determinism in dataset shape (claim C6)

The seed script is not part of the available sources (the orchestration
scripts invoke it without a seed flag).  Modelled from the spec: the
generator's contract is `generate(targetBookingCount, batchSize, seed)`; the
entity cardinalities are derived from the target booking count by the fixed
ratios of the data model, the status mix is the 50/30/15/5 assignment, and
the creation-date distribution is drawn from a PRNG stream seeded by
`seed`. -/

/-- Entity cardinalities of one generated dataset. -/
structure Cardinalities where
  users : Nat
  deposits : Nat
  offerers : Nat
  addresses : Nat
  offererAddresses : Nat
  venues : Nat
  offers : Nat
  stocks : Nat
  bookings : Nat
deriving DecidableEq, Repr

/-- Modelled from the spec: cardinalities derived from the target booking
count by the fixed ratios of the data model (2 bookings per stock, 2.5
stocks per offer, 10 offers per venue, 2 venues per offerer, one address and
one offerer-address per offerer, 5 bookings per user, one deposit per
user). -/
def cardinalitiesOf (target : Nat) : Cardinalities :=
  let stocks := target / 2
  let offers := stocks * 2 / 5
  let venues := offers / 10
  let offerers := venues / 2
  let users := target / 5
  { users := users
  , deposits := users
  , offerers := offerers
  , addresses := offerers
  , offererAddresses := offerers
  , venues := venues
  , offers := offers
  , stocks := stocks
  , bookings := target }

/-- A linear congruential PRNG step (31-bit state, overflow made explicit by
the modulus). -/
def lcg (x : Nat) : Nat := (1103515245 * x + 12345) % 2147483648

/-- The PRNG stream obtained by iterating `lcg` from the seed. -/
def lcgStream (seed : Nat) : Nat → Nat
  | 0 => lcg seed
  | n + 1 => lcg (lcgStream seed n)

/-- The reproducible shape of a generated dataset: entity cardinalities, the
status mix over the booking population, and the creation-date distribution
(day offsets inside the 5-year historical window of 1826 days, drawn from
the seeded PRNG stream). -/
structure DatasetShape where
  cards : Cardinalities
  statusMix : Nat × Nat × Nat × Nat
  dateHistogram : List Nat
deriving DecidableEq, Repr

/-- Modelled from the spec: the dataset shape produced by
`generate(targetBookingCount, batchSize, seed)`.  Only the shape is modelled
because only the shape is required to be reproducible. -/
def generateShape (seed target : Nat) : DatasetShape :=
  { cards := cardinalitiesOf target
  , statusMix :=
      (statusCount .confirmed target, statusCount .used target,
        statusCount .cancelled target, statusCount .reimbursed target)
  , dateHistogram := (List.range 16).map fun i => lcgStream seed i % 1826 }

/-- Claim C6: two generation runs with the same seed and the same target
booking count produce datasets with identical cardinalities for every entity
type and identical statistical properties (status mix, date distribution);
moreover the cardinalities agree with the fixed ratio table. -/
theorem C6_generator_deterministic (seed1 seed2 target : Nat)
    (h : seed1 = seed2) :
    generateShape seed1 target = generateShape seed2 target ∧
    (generateShape seed1 target).cards = (generateShape seed2 target).cards ∧
    (generateShape seed1 target).cards = cardinalitiesOf target := by
  subst h
  exact ⟨rfl, rfl, rfl⟩

/-- Witness for `C6_generator_deterministic`: two runs with seed 42 and
target booking count 10,000. -/
theorem C6_generator_deterministic_witness :
    generateShape 42 10000 = generateShape 42 10000 ∧
    (generateShape 42 10000).cards = (generateShape 42 10000).cards ∧
    (generateShape 42 10000).cards = cardinalitiesOf 10000 :=
  C6_generator_deterministic 42 42 10000 rfl

/-! ## Benchmark scenario suite (claim C7)

`benchmark_bookings_query.py` is not part of the available sources; the
status document lists its fixed suite of 11 named scenarios and the 10 runs
recorded per query.  The suite is embedded verbatim; the per-scenario runner
(`repetitions` executions with each timing recorded individually) is
modelled from the spec. -/

inductive ScenarioKind where
  | countQ
  | listQ
  | statusFilterQ
  | venueFilterQ
deriving DecidableEq, BEq, Repr

structure Scenario where
  name : String
  kind : ScenarioKind
  windowDays : Nat
  page : Option Nat
  statusFilter : Option BookingStatus
deriving DecidableEq, Repr

/-- The fixed 11-scenario suite recorded in the status document: count
queries over the 30/90/365-day rolling windows, first-page listing queries
over those windows plus a fifth-page listing query for the 30-day window,
status-filtered variants over 90 days, and a venue filter over 60 days. -/
def benchmarkScenarios : List Scenario :=
  [ ⟨"count_query_30d", .countQ, 30, none, none⟩
  , ⟨"count_query_90d", .countQ, 90, none, none⟩
  , ⟨"count_query_365d", .countQ, 365, none, none⟩
  , ⟨"list_query_30d_page1", .listQ, 30, some 1, none⟩
  , ⟨"list_query_30d_page5", .listQ, 30, some 5, none⟩
  , ⟨"list_query_90d_page1", .listQ, 90, some 1, none⟩
  , ⟨"list_query_365d_page1", .listQ, 365, some 1, none⟩
  , ⟨"status_filter_CONFIRMED_90d", .statusFilterQ, 90, none, some .confirmed⟩
  , ⟨"status_filter_USED_90d", .statusFilterQ, 90, none, some .used⟩
  , ⟨"status_filter_CANCELLED_90d", .statusFilterQ, 90, none, some .cancelled⟩
  , ⟨"venue_filter_60d", .venueFilterQ, 60, none, none⟩ ]

/-- Default number of repetitions per scenario. -/
def defaultRepetitions : Nat := 10

/-- A scenario is a paginated listing query requesting a page after the
first. -/
def isLaterPageList (w : Nat) (s : Scenario) : Bool :=
  decide (s.kind = .listQ) && decide (s.windowDays = w) &&
    (match s.page with
     | some p => decide (2 ≤ p)
     | none => false)

/-- A count scenario over the `w`-day window is present. -/
def hasCountWindow (w : Nat) : Bool :=
  benchmarkScenarios.any fun s =>
    decide (s.kind = .countQ) && decide (s.windowDays = w)

/-- A first-page listing scenario over the `w`-day window is present. -/
def hasFirstPageList (w : Nat) : Bool :=
  benchmarkScenarios.any fun s =>
    decide (s.kind = .listQ) && decide (s.windowDays = w) &&
      decide (s.page = some 1)

/-- A status-filtered scenario for status `b` over the `w`-day window is
present. -/
def hasStatusFilter (b : BookingStatus) (w : Nat) : Bool :=
  benchmarkScenarios.any fun s =>
    decide (s.kind = .statusFilterQ) && decide (s.windowDays = w) &&
      decide (s.statusFilter = some b)

/-- Modelled from the spec: one scenario run of the missing benchmark
script.  The scenario is executed `defaultRepetitions` times against a
single connection and every per-repetition timing is recorded individually
(`timing s i` is the latency observed for scenario `s` on repetition
`i`). -/
def runScenario (timing : Scenario → Nat → Nat) (s : Scenario) : List Nat :=
  (List.range defaultRepetitions).map (timing s)

/-- Claim C7, counterexample: the suite contains no paginated listing query
over the 90-day window requesting a page after the first, so the suite does
not contain "both a first page and a later page" for every one of the
30/90/365-day windows. -/
theorem C7_counterexample :
    benchmarkScenarios.any (isLaterPageList 90) = false ∧
    benchmarkScenarios.any (isLaterPageList 365) = false := by
  decide

/-- Claim C7, amended: the benchmark suite is the fixed, named 11-scenario
list with count queries over the 30/90/365-day rolling windows, first-page
listing queries over each of those windows, a later-page listing query for
the 30-day window only, status-filtered variants (CONFIRMED, USED,
CANCELLED) over the 90-day window, a venue-filtered variant over a 60-day
window; and every scenario is executed 10 times (the default repetitions)
with every per-repetition timing recorded individually, so mean, median, p95
and p99 can be derived. -/
theorem C7_scenario_suite :
    benchmarkScenarios.length = 11 ∧
    (benchmarkScenarios.map Scenario.name).Nodup ∧
    hasCountWindow 30 = true ∧ hasCountWindow 90 = true ∧
    hasCountWindow 365 = true ∧
    hasFirstPageList 30 = true ∧ hasFirstPageList 90 = true ∧
    hasFirstPageList 365 = true ∧
    benchmarkScenarios.any (isLaterPageList 30) = true ∧
    hasStatusFilter .confirmed 90 = true ∧
    hasStatusFilter .used 90 = true ∧
    hasStatusFilter .cancelled 90 = true ∧
    (benchmarkScenarios.any fun s =>
      decide (s.kind = .venueFilterQ) && decide (s.windowDays = 60)) = true ∧
    ∀ (timing : Scenario → Nat → Nat) (s : Scenario),
      (runScenario timing s).length = defaultRepetitions ∧
      runScenario timing s
        = [timing s 0, timing s 1, timing s 2, timing s 3, timing s 4,
           timing s 5, timing s 6, timing s 7, timing s 8, timing s 9] := by
  refine ⟨by decide, by decide, by decide, by decide, by decide, by decide,
    by decide, by decide, by decide, by decide, by decide, by decide,
    by decide, ?_⟩
  intro timing s
  exact ⟨rfl, rfl⟩
